import Mathlib

/-!
Shallow embedding of the vulkano minimal-example program (src/src/main.rs).

The program opens a window, builds a swapchain, a render pass, a graphics
pipeline and per-image framebuffers, then runs an event loop that redraws a
4-vertex triangle strip every frame, rebuilding the swapchain-dependent
resources on resize or staleness.

Modelling conventions:
  - f32 values appearing in the program (vertex coordinates, viewport
    fields) are all exactly representable in binary floating point
    (halves, zeros, ones, and u32 pixel counts within the f32 mantissa
    range), so they are carried as rationals; the cast of a u32 pixel
    dimension to f32 is modelled as the exact value.
  - Panics (expect, unwrap, panic!, slice index out of bounds) are
    modelled as an explicit panicked result, or as none for the partial
    helper function.
  - External API outcomes (swapchain recreation, image acquisition,
    fence flush) are supplied as oracle inputs to the loop-iteration
    step function, mirroring the match arms of the source.
-/

/-- Vertex type of the program: position and texture coordinate,
two f32 components each (main.rs lines 79-83). -/
structure Vertex2dTex where
  position : ℚ × ℚ
  uv : ℚ × ℚ
deriving DecidableEq, Repr

/-- The fixed 4-vertex rectangle data passed to the one-time
vertex-buffer creation (main.rs lines 200-205). -/
def vertexData : List Vertex2dTex :=
  [ { position := (-(1/2), -(1/2)), uv := (0, 0) },
    { position := (-(1/2),   1/2), uv := (0, 1) },
    { position := (  1/2, -(1/2)), uv := (1, 0) },
    { position := (  1/2,   1/2), uv := (1, 1) } ]

/-- A swapchain image, identified by its pixel dimensions
(width, height), as returned by SwapchainImage::dimensions. -/
structure SwapchainImage where
  dims : ℕ × ℕ
deriving DecidableEq, Repr

/-- The render pass built once from the swapchain format
(main.rs lines 147-161); only its identity matters to the claims,
carried as the attachment format code. -/
structure RenderPass where
  format : ℕ
deriving DecidableEq, Repr

/-- A framebuffer: the render pass it was started from and the single
swapchain image added as its color attachment
(main.rs lines 320-324). -/
structure Framebuffer where
  render_pass : RenderPass
  attachment : SwapchainImage
deriving DecidableEq, Repr

/-- Viewport as built in window_size_dependent_setup
(main.rs lines 311-315). -/
structure Viewport where
  origin : ℚ × ℚ
  dimensions : ℚ × ℚ
  depth_range : ℚ × ℚ
deriving DecidableEq, Repr

/-- DynamicState with the fields of the vulkano struct
(main.rs lines 209-216); fields other than viewports never hold
values in this program and are carried opaquely. -/
structure DynamicState where
  line_width : Option ℚ
  viewports : Option (List Viewport)
  scissors : Option (List ((ℤ × ℤ) × (ℕ × ℕ)))
  compare_mask : Option ℕ
  write_mask : Option ℕ
  reference : Option ℕ
deriving DecidableEq, Repr

/-- The all-None DynamicState value created in main
(main.rs lines 209-216). -/
def init_dynamic_state : DynamicState :=
  { line_width := none, viewports := none, scissors := none,
    compare_mask := none, write_mask := none, reference := none }

/-- window_size_dependent_setup (main.rs lines 304-326): reads the
dimensions of images[0] (a panic on an empty slice, modelled as none),
builds the viewport with origin (0,0), the first image's pixel
dimensions cast to f32, depth range 0.0 .. 1.0, stores it into
dynamic_state.viewports, and maps each image to a framebuffer built
from the render pass with that image attached. The Rust function
returns only the framebuffer vector and mutates the caller's
dynamic_state in place; the mutation is carried here as the second
component of the result. -/
def window_size_dependent_setup (images : List SwapchainImage)
    (render_pass : RenderPass) (dynamic_state : DynamicState) :
    Option (List Framebuffer × DynamicState) :=
  match images with
  | [] => none
  | img0 :: _ =>
    let dimensions := img0.dims
    let viewport : Viewport :=
      { origin := (0, 0),
        dimensions := ((dimensions.1 : ℚ), (dimensions.2 : ℚ)),
        depth_range := (0, 1) }
    let ds := { dynamic_state with viewports := some [viewport] }
    some (images.map (fun image =>
      { render_pass := render_pass, attachment := image }), ds)

example :
    window_size_dependent_setup [⟨(800, 600)⟩] ⟨0⟩ init_dynamic_state =
      some ([{ render_pass := ⟨0⟩, attachment := ⟨(800, 600)⟩ }],
        { init_dynamic_state with
          viewports := some [{ origin := (0, 0), dimensions := (800, 600),
                               depth_range := (0, 1) }] }) := by
  decide

/-- A CpuAccessibleBuffer as produced by from_iter
(main.rs lines 196-206): usage, host_cached flag, and the data it was
filled from. -/
structure CpuAccessibleBuffer where
  usage_all : Bool
  host_cached : Bool
  data : List Vertex2dTex
deriving DecidableEq, Repr

/-- The buffer allocated inside the vertex-buffer block:
CpuAccessibleBuffer::from_iter(device, BufferUsage::all(), false,
vertexData) after unwrap (main.rs lines 196-206). -/
def createdVertexBuffer : CpuAccessibleBuffer :=
  { usage_all := true, host_cached := false, data := vertexData }

/-- A Rust value as bound by a let in this program: either the unit
value or a vertex buffer handle. -/
inductive RustValue where
  | unitVal : RustValue
  | buffer : CpuAccessibleBuffer → RustValue
deriving DecidableEq, Repr

/-- Rust block ending in an expression statement: the expression is
evaluated, its value is dropped, and the block evaluates to the unit
value. This models the trailing semicolon inside the vertex-buffer
block (main.rs line 206). -/
def exprStatementBlock (_dropped : CpuAccessibleBuffer) : RustValue :=
  RustValue.unitVal

/-- The binding named vertex_buffer (main.rs lines 195-207): the block
creates the 4-vertex buffer and then discards it, so the binding holds
the unit value, not the buffer handle. -/
def vertex_buffer : RustValue :=
  exprStatementBlock createdVertexBuffer

/-- Primitive topology of the pipeline. -/
inductive Topology where
  | triangleStrip
  | triangleList
deriving DecidableEq, Repr

/-- The graphics pipeline built once in main (main.rs lines 183-193):
triangle-strip topology, one dynamic viewport with scissors
irrelevant, alpha blending. -/
structure GraphicsPipeline where
  topology : Topology
  dynamic_viewports : ℕ
  alpha_blending : Bool
deriving DecidableEq, Repr

/-- The pipeline value of main. -/
def pipeline : GraphicsPipeline :=
  { topology := Topology.triangleStrip, dynamic_viewports := 1,
    alpha_blending := true }

/-- The command buffer recorded each frame (main.rs lines 257-276):
begin_render_pass on the framebuffer for the acquired image with
secondary-buffers flag false and clear value (1,1,1,1), one draw of
the pipeline with the current dynamic state and the vertex_buffer
binding as the vertex-source argument, end_render_pass, build. -/
structure CommandBuffer where
  framebuffer : Framebuffer
  secondary_buffers : Bool
  clear_values : List (ℚ × ℚ × ℚ × ℚ)
  draw_pipeline : GraphicsPipeline
  draw_dynamic_state : DynamicState
  draw_vertex_arg : RustValue
deriving DecidableEq, Repr

/-- Records the per-frame command buffer for a given framebuffer and
dynamic state (main.rs lines 257-276). -/
def recordCommandBuffer (fb : Framebuffer) (ds : DynamicState) :
    CommandBuffer :=
  { framebuffer := fb,
    secondary_buffers := false,
    clear_values := [(1, 1, 1, 1)],
    draw_pipeline := pipeline,
    draw_dynamic_state := ds,
    draw_vertex_arg := vertex_buffer }

/-- A GpuFuture as stored in previous_frame_end: either the no-op
future sync::now(device) or a fence-signalled future; the flag on the
fence future records whether wait has returned on it. -/
inductive GpuFut where
  | nowFut : GpuFut
  | fenceFut : Bool → GpuFut
deriving DecidableEq, Repr

/-- Whether a stored future represents completed (already waited-on or
no-op) GPU work. -/
def GpuFut.isWaited : GpuFut → Bool
  | GpuFut.nowFut => true
  | GpuFut.fenceFut w => w

/-- The mutable state captured by the event-loop closure
(main.rs lines 130, 209-222): the current swapchain images, the render
pass, framebuffers, dynamic state, the rebuild flag, and the
previous_frame_end slot. -/
structure LoopState where
  swapchain_images : List SwapchainImage
  render_pass : RenderPass
  framebuffers : List Framebuffer
  dynamic_state : DynamicState
  recreate_swapchain : Bool
  previous_frame_end : Option GpuFut
deriving DecidableEq, Repr

/-- Result of Swapchain::recreate_with_dimensions as matched in main
(main.rs lines 233-237). -/
inductive RecreateResult where
  | ok : List SwapchainImage → RecreateResult
  | unsupportedDimensions : RecreateResult
  | otherError : String → RecreateResult
deriving DecidableEq, Repr

/-- Result of swapchain::acquire_next_image as matched in main
(main.rs lines 244-251): on success the image index and the
suboptimal flag (the acquire future itself is joined into the
submission and carried implicitly). -/
inductive AcquireResult where
  | ok : ℕ → Bool → AcquireResult
  | outOfDate : AcquireResult
  | otherError : String → AcquireResult
deriving DecidableEq, Repr

/-- Result of then_signal_fence_and_flush as matched in main
(main.rs lines 284-297). -/
inductive FlushResult where
  | ok : FlushResult
  | outOfDate : FlushResult
  | otherError : String → FlushResult
deriving DecidableEq, Repr

/-- Oracle outcomes of the external API calls made by one
RedrawEventsCleared iteration. -/
structure FrameEnv where
  recreate_result : RecreateResult
  acquire_result : AcquireResult
  flush_result : FlushResult
deriving DecidableEq, Repr

/-- Observable record of the submission performed by one iteration
that reached the command-buffer build: the recorded command buffer,
the token taken out of previous_frame_end and joined with the acquire
future before execution, the image index presented, whether wait was
called on the flushed fence, and the message printed when a
non-stale flush error was logged. -/
structure FrameTrace where
  command_buffer : CommandBuffer
  joined_previous : GpuFut
  presented_image : ℕ
  waited : Bool
  logged : Option String
deriving DecidableEq, Repr

/-- Result of one RedrawEventsCleared arm: the loop continues with a
new state (and a trace when a frame was submitted), or the program
panicked. -/
inductive StepResult where
  | next : LoopState → Option FrameTrace → StepResult
  | panicked : String → StepResult
deriving DecidableEq, Repr

/-- The record-submit-present part of an iteration
(main.rs lines 257-297): record the command buffer for the acquired
image's framebuffer (slice indexing panics when out of bounds), take
previous_frame_end (unwrap panics on None), join the acquire future,
execute, present, and signal-fence-and-flush; on Ok wait on the fence
and store the waited fence future back into previous_frame_end, on
OutOfDate set the rebuild flag and store a fresh no-op future, on any
other error print it and store a fresh no-op future. -/
def submitPhase (s : LoopState) (env : FrameEnv) (image_num : ℕ) :
    StepResult :=
  match s.framebuffers[image_num]? with
  | none => StepResult.panicked "index out of bounds"
  | some fb =>
    match s.previous_frame_end with
    | none => StepResult.panicked "called unwrap on a None value"
    | some prev =>
      match env.flush_result with
      | FlushResult.ok =>
        StepResult.next
          { s with previous_frame_end := some (GpuFut.fenceFut true) }
          (some { command_buffer := recordCommandBuffer fb s.dynamic_state,
                  joined_previous := prev,
                  presented_image := image_num,
                  waited := true, logged := none })
      | FlushResult.outOfDate =>
        StepResult.next
          { s with recreate_swapchain := true,
                   previous_frame_end := some GpuFut.nowFut }
          (some { command_buffer := recordCommandBuffer fb s.dynamic_state,
                  joined_previous := prev,
                  presented_image := image_num,
                  waited := false, logged := none })
      | FlushResult.otherError msg =>
        StepResult.next
          { s with previous_frame_end := some GpuFut.nowFut }
          (some { command_buffer := recordCommandBuffer fb s.dynamic_state,
                  joined_previous := prev,
                  presented_image := image_num,
                  waited := false, logged := some msg })

/-- The part of an iteration from image acquisition onward
(main.rs lines 244-297): acquire the next image (OutOfDate sets the
rebuild flag and returns, other errors panic), set the rebuild flag
when suboptimal, then record, submit and present the frame. -/
def acquirePhase (s : LoopState) (env : FrameEnv) : StepResult :=
  match env.acquire_result with
  | AcquireResult.outOfDate =>
    StepResult.next { s with recreate_swapchain := true } none
  | AcquireResult.otherError msg => StepResult.panicked msg
  | AcquireResult.ok image_num suboptimal =>
    submitPhase
      (if suboptimal then { s with recreate_swapchain := true } else s)
      env image_num

/-- One full RedrawEventsCleared arm (main.rs lines 228-297):
cleanup_finished on the unwrapped previous_frame_end, then, when the
rebuild flag is set, recreate the swapchain (UnsupportedDimensions
returns and skips the frame, other errors panic) and rerun
window_size_dependent_setup, clearing the flag; then the acquire
phase. -/
def redrawEventsCleared (s : LoopState) (env : FrameEnv) : StepResult :=
  match s.previous_frame_end with
  | none => StepResult.panicked "called unwrap on a None value"
  | some _ =>
    if s.recreate_swapchain then
      match env.recreate_result with
      | RecreateResult.unsupportedDimensions => StepResult.next s none
      | RecreateResult.otherError msg =>
        StepResult.panicked ("failed to recreate swapchain " ++ msg)
      | RecreateResult.ok new_images =>
        match window_size_dependent_setup new_images s.render_pass
            s.dynamic_state with
        | none => StepResult.panicked "index out of bounds"
        | some (new_framebuffers, new_ds) =>
          acquirePhase
            { s with swapchain_images := new_images,
                     framebuffers := new_framebuffers,
                     dynamic_state := new_ds,
                     recreate_swapchain := false } env
    else
      acquirePhase s env

/-- The window events matched by the event-loop closure
(main.rs lines 225-300). -/
inductive WinEvent where
  | closeRequested : WinEvent
  | resized : ℕ × ℕ → WinEvent
  | redrawEventsCleared : FrameEnv → WinEvent
  | otherEvent : WinEvent
deriving DecidableEq, Repr

/-- Result of handling one event: the loop exits (control flow set to
Exit), continues with a new state, or the program panicked. -/
inductive EventResult where
  | exit : LoopState → EventResult
  | next : LoopState → Option FrameTrace → EventResult
  | panicked : String → EventResult
deriving DecidableEq, Repr

/-- The event-loop closure body (main.rs lines 224-301):
CloseRequested sets ControlFlow::Exit, Resized sets the rebuild flag,
RedrawEventsCleared runs one frame iteration, all other events do
nothing. -/
def handleEvent (s : LoopState) (ev : WinEvent) : EventResult :=
  match ev with
  | WinEvent.closeRequested => EventResult.exit s
  | WinEvent.resized _ =>
    EventResult.next { s with recreate_swapchain := true } none
  | WinEvent.otherEvent => EventResult.next s none
  | WinEvent.redrawEventsCleared env =>
    match redrawEventsCleared s env with
    | StepResult.next s2 tr => EventResult.next s2 tr
    | StepResult.panicked msg => EventResult.panicked msg

/-- The loop state as set up just before event_loop.run
(main.rs lines 209-222): framebuffers and dynamic state from the
initial window_size_dependent_setup call, rebuild flag false,
previous_frame_end a boxed sync::now no-op future. -/
def initialState (images : List SwapchainImage) (rp : RenderPass) :
    Option LoopState :=
  (window_size_dependent_setup images rp init_dynamic_state).map
    (fun p =>
      { swapchain_images := images, render_pass := rp,
        framebuffers := p.1, dynamic_state := p.2,
        recreate_swapchain := false,
        previous_frame_end := some GpuFut.nowFut })

/-- The previous_frame_end slot holds exactly one future, and that
future's GPU work has been waited on (or is the no-op future). -/
def tokenInv (s : LoopState) : Bool :=
  match s.previous_frame_end with
  | some t => t.isWaited
  | none => false

/-- The viewport built by window_size_dependent_setup for a given
first image (main.rs lines 311-315). -/
def viewportOf (img : SwapchainImage) : Viewport :=
  { origin := (0, 0),
    dimensions := ((img.dims.1 : ℚ), (img.dims.2 : ℚ)),
    depth_range := (0, 1) }

theorem wsds_cons (img0 : SwapchainImage) (rest : List SwapchainImage)
    (rp : RenderPass) (ds : DynamicState) :
    window_size_dependent_setup (img0 :: rest) rp ds =
      some ((img0 :: rest).map
              (fun image => { render_pass := rp, attachment := image }),
            { ds with viewports := some [viewportOf img0] }) := rfl

theorem submitPhase_preserves (s : LoopState) (env : FrameEnv)
    (image_num : ℕ) (s' : LoopState) (tr : Option FrameTrace)
    (h : submitPhase s env image_num = StepResult.next s' tr) :
    s'.framebuffers = s.framebuffers ∧
    s'.dynamic_state = s.dynamic_state ∧
    s'.swapchain_images = s.swapchain_images ∧
    s'.render_pass = s.render_pass := by
  unfold submitPhase at h
  cases hfb : s.framebuffers[image_num]? <;> rw [hfb] at h
  · cases h
  · cases hprev : s.previous_frame_end <;> rw [hprev] at h
    · cases h
    · cases hfl : env.flush_result <;> rw [hfl] at h <;>
        cases h <;> exact ⟨rfl, rfl, rfl, rfl⟩

theorem acquirePhase_preserves (s : LoopState) (env : FrameEnv)
    (s' : LoopState) (tr : Option FrameTrace)
    (h : acquirePhase s env = StepResult.next s' tr) :
    s'.framebuffers = s.framebuffers ∧
    s'.dynamic_state = s.dynamic_state ∧
    s'.swapchain_images = s.swapchain_images ∧
    s'.render_pass = s.render_pass := by
  unfold acquirePhase at h
  cases hacq : env.acquire_result with
  | outOfDate =>
    rw [hacq] at h
    cases h
    exact ⟨rfl, rfl, rfl, rfl⟩
  | otherError msg =>
    rw [hacq] at h
    cases h
  | ok image_num suboptimal =>
    rw [hacq] at h
    cases suboptimal <;> simp only [Bool.false_eq_true, if_false, if_true,
      ite_true, ite_false, Bool.true_eq_false, reduceIte] at h
    · exact submitPhase_preserves s env image_num s' tr h
    · have hp := submitPhase_preserves _ env image_num s' tr h
      simpa using hp

theorem redraw_no_rebuild_eq (si : List SwapchainImage) (rp : RenderPass)
    (fbs : List Framebuffer) (ds : DynamicState) (prev : GpuFut)
    (env : FrameEnv) :
    redrawEventsCleared (LoopState.mk si rp fbs ds false (some prev)) env =
      acquirePhase (LoopState.mk si rp fbs ds false (some prev)) env := rfl

theorem redraw_rebuild_ok_eq (si : List SwapchainImage) (rp : RenderPass)
    (fbs : List Framebuffer) (ds : DynamicState) (prev : GpuFut)
    (img0 : SwapchainImage) (rest : List SwapchainImage)
    (ar : AcquireResult) (fr : FlushResult) :
    redrawEventsCleared (LoopState.mk si rp fbs ds true (some prev))
        (FrameEnv.mk (RecreateResult.ok (img0 :: rest)) ar fr) =
      acquirePhase
        (LoopState.mk (img0 :: rest) rp
          ((img0 :: rest).map
            (fun image => Framebuffer.mk rp image))
          { ds with viewports := some [viewportOf img0] }
          false (some prev))
        (FrameEnv.mk (RecreateResult.ok (img0 :: rest)) ar fr) := rfl

theorem acquire_out_of_date_eq (si : List SwapchainImage) (rp : RenderPass)
    (fbs : List Framebuffer) (ds : DynamicState) (rc : Bool)
    (pfe : Option GpuFut) (rr : RecreateResult) (fr : FlushResult) :
    acquirePhase (LoopState.mk si rp fbs ds rc pfe)
        (FrameEnv.mk rr AcquireResult.outOfDate fr) =
      StepResult.next (LoopState.mk si rp fbs ds true pfe) none := rfl

theorem acquire_ok_eq (si : List SwapchainImage) (rp : RenderPass)
    (fbs : List Framebuffer) (ds : DynamicState) (rc : Bool)
    (pfe : Option GpuFut) (rr : RecreateResult) (fr : FlushResult)
    (image_num : ℕ) (suboptimal : Bool) :
    acquirePhase (LoopState.mk si rp fbs ds rc pfe)
        (FrameEnv.mk rr (AcquireResult.ok image_num suboptimal) fr) =
      submitPhase (LoopState.mk si rp fbs ds (if suboptimal then true else rc) pfe)
        (FrameEnv.mk rr (AcquireResult.ok image_num suboptimal) fr)
        image_num := by
  cases suboptimal <;> rfl

theorem submitPhase_eq (si : List SwapchainImage) (rp : RenderPass)
    (fbs : List Framebuffer) (ds : DynamicState) (rc : Bool) (prev : GpuFut)
    (rr : RecreateResult) (ar : AcquireResult) (fr : FlushResult)
    (image_num : ℕ) (fb : Framebuffer)
    (hfb : fbs[image_num]? = some fb) :
    submitPhase (LoopState.mk si rp fbs ds rc (some prev))
        (FrameEnv.mk rr ar fr) image_num =
      match fr with
      | FlushResult.ok =>
        StepResult.next
          (LoopState.mk si rp fbs ds rc (some (GpuFut.fenceFut true)))
          (some (FrameTrace.mk (recordCommandBuffer fb ds) prev image_num
            true none))
      | FlushResult.outOfDate =>
        StepResult.next
          (LoopState.mk si rp fbs ds true (some GpuFut.nowFut))
          (some (FrameTrace.mk (recordCommandBuffer fb ds) prev image_num
            false none))
      | FlushResult.otherError msg =>
        StepResult.next
          (LoopState.mk si rp fbs ds rc (some GpuFut.nowFut))
          (some (FrameTrace.mk (recordCommandBuffer fb ds) prev image_num
            false (some msg))) := by
  unfold submitPhase
  dsimp only
  rw [hfb]

/-- A sample 800x600 swapchain image for concrete evaluations. -/
def demoImage : SwapchainImage := ⟨(800, 600)⟩

/-- A sample 400x300 swapchain image for concrete evaluations. -/
def demoImage2 : SwapchainImage := ⟨(400, 300)⟩

/-- A sample render pass for concrete evaluations. -/
def demoRenderPass : RenderPass := ⟨7⟩

/-- The framebuffer built for demoImage. -/
def demoFramebuffer : Framebuffer := ⟨demoRenderPass, demoImage⟩

/-- The dynamic state after the initial window_size_dependent_setup
call on [demoImage]. -/
def demoDS : DynamicState :=
  { init_dynamic_state with viewports := some [viewportOf demoImage] }

/-- The loop state just before the event loop starts, for a swapchain
with the single image demoImage. -/
def demoState : LoopState :=
  { swapchain_images := [demoImage], render_pass := demoRenderPass,
    framebuffers := [demoFramebuffer], dynamic_state := demoDS,
    recreate_swapchain := false,
    previous_frame_end := some GpuFut.nowFut }

example : initialState [demoImage] demoRenderPass = some demoState := rfl

/-- C1: when image acquisition returns the swapchain-out-of-date error,
the iteration sets the rebuild flag, skips the rest of the iteration
(no frame trace), and the loop continues with a next state rather than
terminating; and when acquisition succeeds but the
signal-fence-and-flush reports out-of-date, the iteration likewise
continues with the rebuild flag set. -/
theorem out_of_date_never_terminates (si : List SwapchainImage)
    (rp : RenderPass) (fbs : List Framebuffer) (ds : DynamicState)
    (prev : GpuFut) (env : FrameEnv) (image_num : ℕ) (fb : Framebuffer)
    (suboptimal : Bool) :
    (env.acquire_result = AcquireResult.outOfDate →
      redrawEventsCleared (LoopState.mk si rp fbs ds false (some prev))
          env =
        StepResult.next (LoopState.mk si rp fbs ds true (some prev))
          none) ∧
    (env.acquire_result = AcquireResult.ok image_num suboptimal →
      env.flush_result = FlushResult.outOfDate →
      fbs[image_num]? = some fb →
      redrawEventsCleared (LoopState.mk si rp fbs ds false (some prev))
          env =
        StepResult.next
          (LoopState.mk si rp fbs ds true (some GpuFut.nowFut))
          (some (FrameTrace.mk (recordCommandBuffer fb ds) prev
            image_num false none))) := by
  obtain ⟨rr, ar, fr⟩ := env
  constructor
  · intro hacq
    dsimp only at hacq
    subst hacq
    rfl
  · intro hacq hfl hfb
    dsimp only at hacq hfl
    subst hacq
    subst hfl
    rw [redraw_no_rebuild_eq, acquire_ok_eq,
      submitPhase_eq si rp fbs ds _ prev rr _ _ image_num fb hfb]

/-- C1 witness: concrete runs of the two out-of-date paths. -/
theorem out_of_date_never_terminates_witness :
    (redrawEventsCleared demoState
        (FrameEnv.mk (RecreateResult.ok [demoImage])
          AcquireResult.outOfDate FlushResult.ok) =
      StepResult.next
        (LoopState.mk [demoImage] demoRenderPass [demoFramebuffer]
          demoDS true (some GpuFut.nowFut)) none) ∧
    (redrawEventsCleared demoState
        (FrameEnv.mk (RecreateResult.ok [demoImage])
          (AcquireResult.ok 0 false) FlushResult.outOfDate) =
      StepResult.next
        (LoopState.mk [demoImage] demoRenderPass [demoFramebuffer]
          demoDS true (some GpuFut.nowFut))
        (some (FrameTrace.mk
          (recordCommandBuffer demoFramebuffer demoDS) GpuFut.nowFut 0
          false none))) :=
  ⟨(out_of_date_never_terminates [demoImage] demoRenderPass
      [demoFramebuffer] demoDS GpuFut.nowFut _ 0 demoFramebuffer
      false).1 rfl,
   (out_of_date_never_terminates [demoImage] demoRenderPass
      [demoFramebuffer] demoDS GpuFut.nowFut _ 0 demoFramebuffer
      false).2 rfl rfl rfl⟩

theorem submitPhase_token (si : List SwapchainImage) (rp : RenderPass)
    (fbs : List Framebuffer) (ds : DynamicState) (rc : Bool)
    (prev : GpuFut) (env : FrameEnv) (image_num : ℕ) (s' : LoopState)
    (tr : Option FrameTrace) (hw : prev.isWaited = true)
    (h : submitPhase (LoopState.mk si rp fbs ds rc (some prev)) env
        image_num = StepResult.next s' tr) :
    tokenInv s' = true ∧
    (tr.all fun t => t.joined_previous.isWaited) = true := by
  obtain ⟨rr, ar, fr⟩ := env
  cases hfb : fbs[image_num]? with
  | none =>
    unfold submitPhase at h
    dsimp only at h
    rw [hfb] at h
    exact StepResult.noConfusion h
  | some fb =>
    rw [submitPhase_eq si rp fbs ds rc prev rr ar fr image_num fb hfb]
      at h
    cases fr <;> cases h <;>
      exact ⟨rfl, by simp [Option.all, hw]⟩

theorem acquirePhase_token (si : List SwapchainImage) (rp : RenderPass)
    (fbs : List Framebuffer) (ds : DynamicState) (rc : Bool)
    (prev : GpuFut) (env : FrameEnv) (s' : LoopState)
    (tr : Option FrameTrace) (hw : prev.isWaited = true)
    (h : acquirePhase (LoopState.mk si rp fbs ds rc (some prev)) env =
      StepResult.next s' tr) :
    tokenInv s' = true ∧
    (tr.all fun t => t.joined_previous.isWaited) = true := by
  obtain ⟨rr, ar, fr⟩ := env
  cases ar with
  | outOfDate =>
    rw [acquire_out_of_date_eq] at h
    cases h
    exact ⟨by simp [tokenInv, GpuFut.isWaited] at hw ⊢; exact hw, rfl⟩
  | otherError msg => exact StepResult.noConfusion h
  | ok image_num suboptimal =>
    rw [acquire_ok_eq] at h
    exact submitPhase_token si rp fbs ds _ prev _ image_num s' tr hw h

theorem redraw_token (s : LoopState) (env : FrameEnv) (s' : LoopState)
    (tr : Option FrameTrace) (hinv : tokenInv s = true)
    (h : redrawEventsCleared s env = StepResult.next s' tr) :
    tokenInv s' = true ∧
    (tr.all fun t => t.joined_previous.isWaited) = true := by
  obtain ⟨si, rp, fbs, ds, rc, pfe⟩ := s
  cases pfe with
  | none => exact StepResult.noConfusion h
  | some prev =>
    have hw : prev.isWaited = true := by
      simpa [tokenInv] using hinv
    cases rc with
    | false =>
      rw [redraw_no_rebuild_eq] at h
      exact acquirePhase_token si rp fbs ds false prev env s' tr hw h
    | true =>
      obtain ⟨rr, ar, fr⟩ := env
      cases rr with
      | unsupportedDimensions =>
        cases h
        exact ⟨by simpa [tokenInv] using hw, rfl⟩
      | otherError msg => exact StepResult.noConfusion h
      | ok new_images =>
        cases new_images with
        | nil => exact StepResult.noConfusion h
        | cons img0 rest =>
          rw [redraw_rebuild_ok_eq] at h
          exact acquirePhase_token (img0 :: rest) rp _ _ false prev
            (FrameEnv.mk (RecreateResult.ok (img0 :: rest)) ar fr)
            s' tr hw h

/-- C2: the previous_frame_end slot holds exactly one completion token
at every iteration boundary, that token's work has always been waited
on before the next iteration begins (the successful-flush path waits
on its fence before storing it, the error paths store a no-op token),
and any submission performed by an iteration joins a token that has
already been waited on; the invariant holds initially and is preserved
by every event the loop handles. -/
theorem single_inflight_token (s : LoopState) (ev : WinEvent)
    (images : List SwapchainImage) (rp : RenderPass) (s0 : LoopState)
    (hinv : tokenInv s = true) :
    (initialState images rp = some s0 → tokenInv s0 = true) ∧
    (∀ s2 tr, handleEvent s ev = EventResult.next s2 tr →
      tokenInv s2 = true ∧
      (tr.all fun t => t.joined_previous.isWaited) = true) ∧
    (∀ s2, handleEvent s ev = EventResult.exit s2 →
      tokenInv s2 = true) := by
  refine ⟨?_, ?_, ?_⟩
  · intro h0
    cases images with
    | nil => exact Option.noConfusion h0
    | cons img0 rest =>
      unfold initialState at h0
      rw [wsds_cons] at h0
      cases h0
      rfl
  · intro s2 tr h
    cases ev with
    | closeRequested => exact EventResult.noConfusion h
    | resized d =>
      cases h
      exact ⟨hinv, rfl⟩
    | otherEvent =>
      cases h
      exact ⟨hinv, rfl⟩
    | redrawEventsCleared env =>
      cases hr : redrawEventsCleared s env with
      | next s3 tr3 =>
        unfold handleEvent at h
        dsimp only at h
        rw [hr] at h
        cases h
        exact redraw_token s env _ _ hinv hr
      | panicked msg =>
        unfold handleEvent at h
        dsimp only at h
        rw [hr] at h
        exact EventResult.noConfusion h
  · intro s2 h
    cases ev with
    | closeRequested =>
      cases h
      exact hinv
    | resized d => exact EventResult.noConfusion h
    | otherEvent => exact EventResult.noConfusion h
    | redrawEventsCleared env =>
      cases hr : redrawEventsCleared s env with
      | next s3 tr3 =>
        unfold handleEvent at h
        dsimp only at h
        rw [hr] at h
        exact EventResult.noConfusion h
      | panicked msg =>
        unfold handleEvent at h
        dsimp only at h
        rw [hr] at h
        exact EventResult.noConfusion h

/-- C2 witness: a concrete successful frame from the initial state
keeps the invariant and joins the already-completed no-op token. -/
theorem single_inflight_token_witness :
    tokenInv (LoopState.mk [demoImage] demoRenderPass [demoFramebuffer]
      demoDS false (some (GpuFut.fenceFut true))) = true ∧
    ((some (FrameTrace.mk (recordCommandBuffer demoFramebuffer demoDS)
        GpuFut.nowFut 0 true none)).all
      fun t => t.joined_previous.isWaited) = true :=
  ((single_inflight_token demoState
      (WinEvent.redrawEventsCleared
        (FrameEnv.mk (RecreateResult.ok [demoImage])
          (AcquireResult.ok 0 false) FlushResult.ok))
      [demoImage] demoRenderPass demoState rfl).2.1
    (LoopState.mk [demoImage] demoRenderPass [demoFramebuffer] demoDS
      false (some (GpuFut.fenceFut true)))
    (some (FrameTrace.mk (recordCommandBuffer demoFramebuffer demoDS)
      GpuFut.nowFut 0 true none)) rfl)




/-- The loop state after a resize event flagged the swapchain for
recreation. -/
def demoFlaggedState : LoopState :=
  { demoState with recreate_swapchain := true }

/-- An iteration environment whose rebuild succeeds with the single
smaller image demoImage2 and whose acquisition then reports
out-of-date. -/
def demoEnvRebuild : FrameEnv :=
  { recreate_result := RecreateResult.ok [demoImage2],
    acquire_result := AcquireResult.outOfDate,
    flush_result := FlushResult.ok }

/-- The loop state reached from demoFlaggedState under demoEnvRebuild:
rebuilt for demoImage2, flagged again by the out-of-date acquisition. -/
def demoRebuiltState : LoopState :=
  { swapchain_images := [demoImage2], render_pass := demoRenderPass,
    framebuffers := [⟨demoRenderPass, demoImage2⟩],
    dynamic_state := { demoDS with viewports := some [viewportOf demoImage2] },
    recreate_swapchain := true,
    previous_frame_end := some GpuFut.nowFut }

example :
    redrawEventsCleared demoFlaggedState demoEnvRebuild =
      StepResult.next demoRebuiltState none := rfl

/-- C3: window_size_dependent_setup returns exactly one framebuffer
per input image; this holds for the initial setup and for the
framebuffer list installed by any rebuild performed inside an
iteration whose recreation succeeded. -/
theorem one_target_per_image (images imgs : List SwapchainImage)
    (rp : RenderPass) (ds : DynamicState) (s s' : LoopState)
    (env : FrameEnv) (tr : Option FrameTrace) :
    (images ≠ [] →
      ∃ fbs ds2,
        window_size_dependent_setup images rp ds = some (fbs, ds2) ∧
        fbs.length = images.length) ∧
    (images ≠ [] →
      ∃ s0, initialState images rp = some s0 ∧
        s0.framebuffers.length = images.length) ∧
    (s.recreate_swapchain = true →
      env.recreate_result = RecreateResult.ok imgs →
      redrawEventsCleared s env = StepResult.next s' tr →
      s'.framebuffers.length = imgs.length) := by
  refine ⟨?_, ?_, ?_⟩
  · intro hne
    cases images with
    | nil => exact absurd rfl hne
    | cons img0 rest =>
      exact ⟨_, _, wsds_cons img0 rest rp ds, by simp⟩
  · intro hne
    cases images with
    | nil => exact absurd rfl hne
    | cons img0 rest =>
      refine ⟨LoopState.mk (img0 :: rest) rp
        ((img0 :: rest).map (fun image => Framebuffer.mk rp image))
        { init_dynamic_state with viewports := some [viewportOf img0] }
        false (some GpuFut.nowFut), rfl, by simp⟩
  · intro hflag hok h
    obtain ⟨si0, rp0, fbs0, ds0, rc0, pfe0⟩ := s
    obtain ⟨rr0, ar0, fr0⟩ := env
    dsimp only at hflag hok
    subst hflag
    subst hok
    cases pfe0 with
    | none => exact StepResult.noConfusion h
    | some prev =>
      cases imgs with
      | nil => exact StepResult.noConfusion h
      | cons img0 rest =>
        rw [redraw_rebuild_ok_eq] at h
        have hp := acquirePhase_preserves _ _ _ _ h
        rw [hp.1]
        simp

/-- C3 witness: two-image setup, initial state, and a concrete rebuild
to a one-image swapchain. -/
theorem one_target_per_image_witness :
    (∃ fbs ds2,
      window_size_dependent_setup [demoImage, demoImage2] demoRenderPass
        init_dynamic_state = some (fbs, ds2) ∧
      fbs.length = [demoImage, demoImage2].length) ∧
    (∃ s0,
      initialState [demoImage, demoImage2] demoRenderPass = some s0 ∧
      s0.framebuffers.length = [demoImage, demoImage2].length) ∧
    demoRebuiltState.framebuffers.length = [demoImage2].length :=
  ⟨(one_target_per_image [demoImage, demoImage2] [demoImage2]
      demoRenderPass init_dynamic_state demoFlaggedState
      demoRebuiltState demoEnvRebuild none).1 (by decide),
   (one_target_per_image [demoImage, demoImage2] [demoImage2]
      demoRenderPass init_dynamic_state demoFlaggedState
      demoRebuiltState demoEnvRebuild none).2.1 (by decide),
   (one_target_per_image [demoImage, demoImage2] [demoImage2]
      demoRenderPass init_dynamic_state demoFlaggedState
      demoRebuiltState demoEnvRebuild none).2.2 rfl rfl rfl⟩

/-- C4: the viewport installed into the dynamic state by
window_size_dependent_setup has origin (0,0), width and height equal
to the first image's pixel dimensions, and depth range 0 to 1, both at
the function level and in the loop state left by any iteration whose
rebuild succeeded. -/
theorem viewport_matches_first_image (img0 : SwapchainImage)
    (rest : List SwapchainImage) (rp : RenderPass)
    (ds ds2 : DynamicState) (fbs : List Framebuffer) (s s' : LoopState)
    (env : FrameEnv) (tr : Option FrameTrace) :
    (window_size_dependent_setup (img0 :: rest) rp ds =
        some (fbs, ds2) →
      ds2.viewports =
        some [{ origin := (0, 0),
                dimensions := ((img0.dims.1 : ℚ), (img0.dims.2 : ℚ)),
                depth_range := (0, 1) }]) ∧
    (s.recreate_swapchain = true →
      env.recreate_result = RecreateResult.ok (img0 :: rest) →
      redrawEventsCleared s env = StepResult.next s' tr →
      s'.dynamic_state.viewports =
        some [{ origin := (0, 0),
                dimensions := ((img0.dims.1 : ℚ), (img0.dims.2 : ℚ)),
                depth_range := (0, 1) }]) := by
  constructor
  · intro h
    rw [wsds_cons] at h
    cases h
    rfl
  · intro hflag hok h
    obtain ⟨si0, rp0, fbs0, ds0, rc0, pfe0⟩ := s
    obtain ⟨rr0, ar0, fr0⟩ := env
    dsimp only at hflag hok
    subst hflag
    subst hok
    cases pfe0 with
    | none => exact StepResult.noConfusion h
    | some prev =>
      rw [redraw_rebuild_ok_eq] at h
      have hp := acquirePhase_preserves _ _ _ _ h
      rw [hp.2.1]
      rfl

/-- C4 witness: concrete viewport contents after a rebuild for the
400x300 image. -/
theorem viewport_matches_first_image_witness :
    (({ demoDS with viewports := some [viewportOf demoImage2] } :
        DynamicState).viewports =
      some [{ origin := (0, 0),
              dimensions := ((demoImage2.dims.1 : ℚ), (demoImage2.dims.2 : ℚ)),
              depth_range := (0, 1) }]) ∧
    demoRebuiltState.dynamic_state.viewports =
      some [{ origin := (0, 0),
              dimensions := ((demoImage2.dims.1 : ℚ), (demoImage2.dims.2 : ℚ)),
              depth_range := (0, 1) }] :=
  ⟨(viewport_matches_first_image demoImage2 [] demoRenderPass demoDS
      { demoDS with viewports := some [viewportOf demoImage2] }
      [⟨demoRenderPass, demoImage2⟩] demoFlaggedState demoRebuiltState
      demoEnvRebuild none).1 rfl,
   (viewport_matches_first_image demoImage2 [] demoRenderPass demoDS
      { demoDS with viewports := some [viewportOf demoImage2] }
      [⟨demoRenderPass, demoImage2⟩] demoFlaggedState demoRebuiltState
      demoEnvRebuild none).2 rfl rfl rfl⟩

/-- C5: during a rebuild, the unsupported-dimensions recreation error
makes the iteration return with the state unchanged and no frame drawn
(the loop continues and will retry), while any other recreation error
panics with the corresponding message. -/
theorem unsupported_dimensions_skips_frame (si : List SwapchainImage)
    (rp : RenderPass) (fbs : List Framebuffer) (ds : DynamicState)
    (prev : GpuFut) (env : FrameEnv) (msg : String) :
    (env.recreate_result = RecreateResult.unsupportedDimensions →
      redrawEventsCleared (LoopState.mk si rp fbs ds true (some prev))
          env =
        StepResult.next (LoopState.mk si rp fbs ds true (some prev))
          none) ∧
    (env.recreate_result = RecreateResult.otherError msg →
      redrawEventsCleared (LoopState.mk si rp fbs ds true (some prev))
          env =
        StepResult.panicked ("failed to recreate swapchain " ++ msg)) := by
  obtain ⟨rr, ar, fr⟩ := env
  constructor
  · intro hrec
    dsimp only at hrec
    subst hrec
    rfl
  · intro hrec
    dsimp only at hrec
    subst hrec
    rfl

/-- C5 witness: a concrete minimized-window skip and a concrete fatal
recreation error. -/
theorem unsupported_dimensions_skips_frame_witness :
    (redrawEventsCleared demoFlaggedState
        (FrameEnv.mk RecreateResult.unsupportedDimensions
          AcquireResult.outOfDate FlushResult.ok) =
      StepResult.next demoFlaggedState none) ∧
    (redrawEventsCleared demoFlaggedState
        (FrameEnv.mk (RecreateResult.otherError "OomError")
          AcquireResult.outOfDate FlushResult.ok) =
      StepResult.panicked "failed to recreate swapchain OomError") :=
  ⟨(unsupported_dimensions_skips_frame [demoImage] demoRenderPass
      [demoFramebuffer] demoDS GpuFut.nowFut
      (FrameEnv.mk RecreateResult.unsupportedDimensions
        AcquireResult.outOfDate FlushResult.ok) "OomError").1 rfl,
   (unsupported_dimensions_skips_frame [demoImage] demoRenderPass
      [demoFramebuffer] demoDS GpuFut.nowFut
      (FrameEnv.mk (RecreateResult.otherError "OomError")
        AcquireResult.outOfDate FlushResult.ok) "OomError").2 rfl⟩

/-- C6 counterexample: at a concrete input the dynamic state handed to
window_size_dependent_setup differs from the dynamic state after the
call, so the function does modify state outside its return value (the
Rust return value is only the framebuffer vector; the viewport is
delivered by writing through the mutable dynamic_state reference,
main.rs line 317). -/
theorem frame_target_builder_mutates :
    window_size_dependent_setup [demoImage] demoRenderPass
        init_dynamic_state = some ([demoFramebuffer], demoDS) ∧
    demoDS ≠ init_dynamic_state := by
  exact ⟨rfl, by decide⟩

/-- C6 (amended): window_size_dependent_setup is a deterministic
function of its inputs whose framebuffer output depends only on
(images, render-pass); its single effect beyond allocation is writing
the computed viewport into the caller-supplied dynamic state's
viewports field, which it mutates rather than returning, leaving
every other field of that state unchanged. -/
theorem frame_target_builder_effects (images : List SwapchainImage)
    (rp : RenderPass) (ds ds2 : DynamicState) (fbs : List Framebuffer)
    (h : window_size_dependent_setup images rp ds = some (fbs, ds2)) :
    fbs = images.map (fun image => Framebuffer.mk rp image) ∧
    (∃ img0 rest, images = img0 :: rest ∧
      ds2 = { ds with viewports := some [viewportOf img0] }) ∧
    ds2.line_width = ds.line_width ∧
    ds2.scissors = ds.scissors ∧
    ds2.compare_mask = ds.compare_mask ∧
    ds2.write_mask = ds.write_mask ∧
    ds2.reference = ds.reference := by
  cases images with
  | nil => exact Option.noConfusion h
  | cons img0 rest =>
    rw [wsds_cons] at h
    cases h
    exact ⟨rfl, ⟨img0, rest, rfl, rfl⟩, rfl, rfl, rfl, rfl, rfl⟩

/-- C6 witness: the amended statement evaluated at a concrete call. -/
theorem frame_target_builder_effects_witness :
    [demoFramebuffer] =
      [demoImage].map (fun image => Framebuffer.mk demoRenderPass image) ∧
    (∃ img0 rest, [demoImage] = img0 :: rest ∧
      demoDS = { init_dynamic_state with
                   viewports := some [viewportOf img0] }) ∧
    demoDS.line_width = init_dynamic_state.line_width ∧
    demoDS.scissors = init_dynamic_state.scissors ∧
    demoDS.compare_mask = init_dynamic_state.compare_mask ∧
    demoDS.write_mask = init_dynamic_state.write_mask ∧
    demoDS.reference = init_dynamic_state.reference :=
  frame_target_builder_effects [demoImage] demoRenderPass
    init_dynamic_state demoDS [demoFramebuffer] rfl

/-- C7: when acquisition succeeds with the suboptimal flag set, the
iteration still records, submits and presents the frame (the step
yields a trace carrying the recorded command buffer and the presented
image index) and sets the rebuild flag, so that the next iteration
rebuilds the swapchain-dependent resources before acquiring. -/
theorem suboptimal_frame_proceeds (si : List SwapchainImage)
    (rp : RenderPass) (fbs : List Framebuffer) (ds : DynamicState)
    (prev : GpuFut) (env env2 : FrameEnv) (image_num : ℕ)
    (fb : Framebuffer) (img0 : SwapchainImage)
    (rest : List SwapchainImage) (s2 : LoopState)
    (tr2 : Option FrameTrace)
    (hacq : env.acquire_result = AcquireResult.ok image_num true)
    (hfl : env.flush_result = FlushResult.ok)
    (hfb : fbs[image_num]? = some fb) :
    redrawEventsCleared (LoopState.mk si rp fbs ds false (some prev))
        env =
      StepResult.next
        (LoopState.mk si rp fbs ds true (some (GpuFut.fenceFut true)))
        (some (FrameTrace.mk (recordCommandBuffer fb ds) prev image_num
          true none)) ∧
    (env2.recreate_result = RecreateResult.ok (img0 :: rest) →
      redrawEventsCleared
          (LoopState.mk si rp fbs ds true (some (GpuFut.fenceFut true)))
          env2 =
        StepResult.next s2 tr2 →
      s2.framebuffers =
        (img0 :: rest).map (fun image => Framebuffer.mk rp image) ∧
      s2.dynamic_state =
        { ds with viewports := some [viewportOf img0] }) := by
  obtain ⟨rr, ar, fr⟩ := env
  dsimp only at hacq hfl
  subst hacq
  subst hfl
  constructor
  · rw [redraw_no_rebuild_eq, acquire_ok_eq,
      submitPhase_eq si rp fbs ds _ prev rr _ _ image_num fb hfb]
    rfl
  · intro hok h2
    obtain ⟨rr2, ar2, fr2⟩ := env2
    dsimp only at hok
    subst hok
    rw [redraw_rebuild_ok_eq] at h2
    have hp := acquirePhase_preserves _ _ _ _ h2
    exact ⟨by rw [hp.1], by rw [hp.2.1]⟩

/-- C7 witness: a concrete suboptimal frame followed by a concrete
rebuild on the next iteration. -/
theorem suboptimal_frame_proceeds_witness :
    (redrawEventsCleared demoState
        (FrameEnv.mk (RecreateResult.ok [demoImage])
          (AcquireResult.ok 0 true) FlushResult.ok) =
      StepResult.next
        (LoopState.mk [demoImage] demoRenderPass [demoFramebuffer]
          demoDS true (some (GpuFut.fenceFut true)))
        (some (FrameTrace.mk
          (recordCommandBuffer demoFramebuffer demoDS) GpuFut.nowFut 0
          true none))) ∧
    ((LoopState.mk [demoImage2] demoRenderPass
        [Framebuffer.mk demoRenderPass demoImage2]
        { demoDS with viewports := some [viewportOf demoImage2] } true
        (some (GpuFut.fenceFut true))).framebuffers =
      [demoImage2].map (fun image => Framebuffer.mk demoRenderPass image) ∧
    (LoopState.mk [demoImage2] demoRenderPass
        [Framebuffer.mk demoRenderPass demoImage2]
        { demoDS with viewports := some [viewportOf demoImage2] } true
        (some (GpuFut.fenceFut true))).dynamic_state =
      { demoDS with viewports := some [viewportOf demoImage2] }) :=
  ⟨(suboptimal_frame_proceeds [demoImage] demoRenderPass
      [demoFramebuffer] demoDS GpuFut.nowFut
      (FrameEnv.mk (RecreateResult.ok [demoImage])
        (AcquireResult.ok 0 true) FlushResult.ok) demoEnvRebuild 0
      demoFramebuffer demoImage2 []
      (LoopState.mk [demoImage2] demoRenderPass
        [Framebuffer.mk demoRenderPass demoImage2]
        { demoDS with viewports := some [viewportOf demoImage2] } true
        (some (GpuFut.fenceFut true))) none rfl rfl rfl).1,
   (suboptimal_frame_proceeds [demoImage] demoRenderPass
      [demoFramebuffer] demoDS GpuFut.nowFut
      (FrameEnv.mk (RecreateResult.ok [demoImage])
        (AcquireResult.ok 0 true) FlushResult.ok) demoEnvRebuild 0
      demoFramebuffer demoImage2 []
      (LoopState.mk [demoImage2] demoRenderPass
        [Framebuffer.mk demoRenderPass demoImage2]
        { demoDS with viewports := some [viewportOf demoImage2] } true
        (some (GpuFut.fenceFut true))) none rfl rfl rfl).2 rfl rfl⟩

/-- C8: a flush failure other than out-of-date makes the iteration log
the error message, replace the in-flight token with a fresh no-op
future, and continue to the next iteration instead of panicking. -/
theorem flush_error_resets_token (si : List SwapchainImage)
    (rp : RenderPass) (fbs : List Framebuffer) (ds : DynamicState)
    (prev : GpuFut) (env : FrameEnv) (image_num : ℕ)
    (suboptimal : Bool) (fb : Framebuffer) (msg : String)
    (hacq : env.acquire_result = AcquireResult.ok image_num suboptimal)
    (hfl : env.flush_result = FlushResult.otherError msg)
    (hfb : fbs[image_num]? = some fb) :
    redrawEventsCleared (LoopState.mk si rp fbs ds false (some prev))
        env =
      StepResult.next
        (LoopState.mk si rp fbs ds suboptimal (some GpuFut.nowFut))
        (some (FrameTrace.mk (recordCommandBuffer fb ds) prev image_num
          false (some msg))) := by
  obtain ⟨rr, ar, fr⟩ := env
  dsimp only at hacq hfl
  subst hacq
  subst hfl
  rw [redraw_no_rebuild_eq, acquire_ok_eq,
    submitPhase_eq si rp fbs ds _ prev rr _ _ image_num fb hfb]
  cases suboptimal <;> rfl

/-- C8 witness: a concrete device-lost flush error is logged and
resets the token. -/
theorem flush_error_resets_token_witness :
    redrawEventsCleared demoState
        (FrameEnv.mk (RecreateResult.ok [demoImage])
          (AcquireResult.ok 0 false)
          (FlushResult.otherError "DeviceLost")) =
      StepResult.next
        (LoopState.mk [demoImage] demoRenderPass [demoFramebuffer]
          demoDS false (some GpuFut.nowFut))
        (some (FrameTrace.mk
          (recordCommandBuffer demoFramebuffer demoDS) GpuFut.nowFut 0
          false (some "DeviceLost"))) :=
  flush_error_resets_token [demoImage] demoRenderPass [demoFramebuffer]
    demoDS GpuFut.nowFut
    (FrameEnv.mk (RecreateResult.ok [demoImage])
      (AcquireResult.ok 0 false) (FlushResult.otherError "DeviceLost"))
    0 false demoFramebuffer "DeviceLost" rfl rfl rfl

/-- C9: the vertex-buffer block ends in a discarding statement, so the
binding named vertex_buffer holds the unit value rather than the
allocated buffer handle, and the per-frame draw call passes that same
binding as its vertex-source argument. -/
theorem vertex_buffer_discarded (fb : Framebuffer)
    (ds : DynamicState) :
    vertex_buffer = RustValue.unitVal ∧
    vertex_buffer ≠ RustValue.buffer createdVertexBuffer ∧
    (recordCommandBuffer fb ds).draw_vertex_arg = vertex_buffer :=
  ⟨rfl, by decide, rfl⟩

/-- C10: window_size_dependent_setup reads images[0] before building
any target, so on an empty image list it panics (modelled as none)
rather than returning an empty target list, and it is total whenever
the image list is non-empty. -/
theorem empty_images_panics (images : List SwapchainImage)
    (rp : RenderPass) (ds : DynamicState) (h : images ≠ []) :
    window_size_dependent_setup [] rp ds = none ∧
    (window_size_dependent_setup images rp ds).isSome = true := by
  refine ⟨rfl, ?_⟩
  cases images with
  | nil => exact absurd rfl h
  | cons img0 rest => rfl

/-- C10 witness: the empty list panics and a one-image list
succeeds. -/
theorem empty_images_panics_witness :
    window_size_dependent_setup [] demoRenderPass init_dynamic_state =
      none ∧
    (window_size_dependent_setup [demoImage] demoRenderPass
      init_dynamic_state).isSome = true :=
  empty_images_panics [demoImage] demoRenderPass init_dynamic_state
    (by decide)
